import Mathlib

/-
Verification of the Isolated-Worker Supervision Engine of the xlsx2pdf
repository (src/main.py, src/src/converter.py, src/src/interface/
converter_interface.py), as a shallow embedding in Lean 4.

The embedding models the parent-side supervision of one worker process
(main.py, main(), lines 274-365), the process-tree terminator
(main.py, kill_process_tree, lines 71-81), the worker harness
(main.py, convert_worker, lines 40-69 together with
OfficeConverter.convert, converter_interface.py lines 173-237), and the
COM lifecycle of ExcelConverter.convert (converter.py lines 124-200).

External nondeterminism (the wall clock observed by time.time(), process
liveness, queue arrivals, psutil behaviour, COM call outcomes) is supplied
as explicit trace/environment data; the Lean functions mirror the Python
control flow over those inputs.  Log records crossing the Log Channel are
abstracted to opaque numeric payloads.
-/

namespace Xlsx2Pdf

/-- A log record carried by the Log Channel (multiprocessing.Queue).  The
payload is opaque to the supervisor, which only forwards records in order,
so records are abstracted to numeric tokens. -/
abbrev LogRec := Nat

/-! ### Process-tree terminator (main.py, kill_process_tree, lines 71-81)

psutil operations are modelled against a process world: the set of live
pids, the parent/child relation, the pids whose kill raises
psutil.AccessDenied (e.g. a protected or zombie process the caller may not
signal), and the pids that exit on their own in the race window between
psutil enumeration and the kill attempt. -/

/-- Exceptions a psutil kill/Process operation can raise:
psutil.NoSuchProcess (the process already exited) and
psutil.AccessDenied (the caller may not signal the process).
kill_process_tree catches only the former. -/
inductive PTError where
  | noSuchProcess
  | accessDenied
deriving DecidableEq

/-- The psutil-visible state of the OS for one kill_process_tree call. -/
structure PsWorld where
  /-- pids alive when kill_process_tree is entered. -/
  alive : List Nat
  /-- the parent/child relation, as an association list parent ↦ children. -/
  childrenMap : List (Nat × List Nat)
  /-- pids whose kill raises psutil.AccessDenied instead of succeeding. -/
  protectedPids : List Nat
  /-- pids that exit on their own after `psutil.Process(pid)` construction and
  child enumeration but before their own kill attempt (the race the code's
  `except psutil.NoSuchProcess` is there for). -/
  raceDeaths : List Nat
deriving DecidableEq

/-- Children of a pid in the snapshot relation. -/
def childrenOf (m : List (Nat × List Nat)) (pid : Nat) : List Nat :=
  (m.lookup pid).getD []

/-- Fuel-bounded recursive enumeration of descendants, mirroring
`parent.children(recursive=True)` (main.py line 77).  The enumeration
order is a depth-first preorder; no claim depends on the order. -/
def descendantsAux (m : List (Nat × List Nat)) : Nat → Nat → List Nat
  | 0, _ => []
  | Nat.succ fuel, pid =>
      (childrenOf m pid).foldr (fun c acc => (c :: descendantsAux m fuel c) ++ acc) []

/-- Descendant enumeration with enough fuel for any world of this size. -/
def descendants (w : PsWorld) (pid : Nat) : List Nat :=
  descendantsAux w.childrenMap (w.alive.length + w.childrenMap.length + 1) pid

/-- Result of one `Process.kill()` attempt. -/
inductive KillRes where
  | ok (alive : List Nat)
  | err (e : PTError)
deriving DecidableEq

/-- One `p.kill()` attempt (psutil semantics): a dead process raises
NoSuchProcess, a protected live process raises AccessDenied, otherwise the
process is removed from the live set. -/
def killAttempt (protectedPids : List Nat) (alive : List Nat) (pid : Nat) : KillRes :=
  if pid ∈ alive then
    if pid ∈ protectedPids then KillRes.err PTError.accessDenied
    else KillRes.ok (alive.erase pid)
  else KillRes.err PTError.noSuchProcess

/-- The `for child in parent.children(recursive=True): child.kill()` loop
(main.py lines 77-78).  The first raising attempt stops the loop, carrying
the live set as it stands at that moment. -/
def killList (protectedPids : List Nat) : List Nat → List Nat → List Nat × Option PTError
  | alive, [] => (alive, none)
  | alive, p :: ps =>
      match killAttempt protectedPids alive p with
      | KillRes.ok alive2 => killList protectedPids alive2 ps
      | KillRes.err e => (alive, some e)

/-- main.py lines 71-81.  `psutil.Process(pid)` raises NoSuchProcess for a
dead pid; then every descendant is killed in turn, then the root.  The whole
body sits in a single `try`, and only `psutil.NoSuchProcess` is caught
(`except psutil.NoSuchProcess: pass`), so the first NoSuchProcess anywhere
ends the call early without raising, while an AccessDenied escapes to the
caller.  The result is the live set after the call plus the exception that
escaped it, if any. -/
def kill_process_tree (w : PsWorld) (pid : Nat) : List Nat × Option PTError :=
  if pid ∈ w.alive then
    let ds := descendants w pid
    let st := w.alive.filter (fun q => !(w.raceDeaths.contains q))
    match killList w.protectedPids st ds with
    | (st2, some PTError.noSuchProcess) => (st2, none)
    | (st2, some PTError.accessDenied) => (st2, some PTError.accessDenied)
    | (st2, none) =>
        match killAttempt w.protectedPids st2 pid with
        | KillRes.ok st3 => (st3, none)
        | KillRes.err PTError.noSuchProcess => (st2, none)
        | KillRes.err PTError.accessDenied => (st2, some PTError.accessDenied)
  else (w.alive, none)

/-! ### Task supervision (main.py, main(), lines 274-365)

The per-task supervision loop is driven by a trace of observations: for
each loop iteration executed while `p.is_alive()` was true, the records and
pids that arrived on the two queues since the previous iteration, the
verdict of the `time.time() - start_time > timeout_seconds` check
(line 300), and, if that verdict was positive, whether the worker was still
alive after `p.terminate(); p.join(timeout=5)` (line 304).  After the loop,
the trace supplies the records found by the final drain (lines 318-323),
the verdict of the post-loop deadline re-check (line 330), the liveness
observed at line 326 on the timeout path, and the worker's exit code. -/

/-- Observations of one iteration of the `while p.is_alive():` loop. -/
structure IterObs where
  /-- log records that arrived on log_queue since the previous drain. -/
  newLogs : List LogRec
  /-- pids that arrived on pid_queue since the previous check. -/
  newPids : List Nat
  /-- verdict of `time.time() - start_time > timeout_seconds` (line 300). -/
  over : Bool
  /-- `p.is_alive()` after terminate and the 5 s grace join (line 304);
  consulted only when `over` is true. -/
  aliveAfterGrace : Bool
deriving DecidableEq

/-- The full observation trace for one task's supervision. -/
structure TaskTrace where
  /-- iterations for which `p.is_alive()` held; the loop exits naturally
  after consuming them all, unless an earlier iteration had `over`. -/
  iters : List IterObs
  /-- records sitting in log_queue at the final drain (lines 318-323). -/
  tailLogs : List LogRec
  /-- verdict of `time.time() - start_time <= timeout_seconds` negated, at
  line 330 (true means the post-loop check reads past the deadline). -/
  postOver : Bool
  /-- `p.is_alive()` at line 326 after a timeout kill; on a natural exit the
  loop itself just observed the process dead, so false is used there. -/
  aliveAtPostCheck : Bool
  /-- `p.exitcode`; none models a process that never exited. -/
  exitcode : Option Int
  /-- the psutil world in which a timeout tree-kill would run. -/
  world : PsWorld
deriving DecidableEq

/-- Parent-side mutable state for one task: the two queues, the records
already forwarded to the root logger (and hence every attached sink), and
the `excel_pid` variable (line 280). -/
structure LoopState where
  logQueue : List LogRec
  pidQueue : List Nat
  delivered : List LogRec
  captured : Option Nat
deriving DecidableEq

/-- State at `p.start()`: empty queues, nothing forwarded, `excel_pid = None`. -/
def initLoopState : LoopState :=
  { logQueue := [], pidQueue := [], delivered := [], captured := none }

/-- `while not log_queue.empty(): root_logger.handle(log_queue.get_nowait())`
(lines 284-290 and 318-323): every record currently queued is forwarded, in
queue order. -/
def drainLogs (ls : LoopState) : LoopState :=
  { ls with delivered := ls.delivered ++ ls.logQueue, logQueue := [] }

/-- `if excel_pid is None and not pid_queue.empty(): excel_pid =
pid_queue.get_nowait()` (lines 293-297): one non-blocking read, only while
nothing has been captured. -/
def checkPid (ls : LoopState) : LoopState :=
  match ls.captured, ls.pidQueue with
  | none, p :: rest => { ls with captured := some p, pidQueue := rest }
  | _, _ => ls

/-- One loop iteration up to the timeout check: arrivals are enqueued, the
log queue is drained, the pid queue is checked once. -/
def iterStep (ob : IterObs) (ls : LoopState) : LoopState :=
  checkPid (drainLogs { ls with
    logQueue := ls.logQueue ++ ob.newLogs,
    pidQueue := ls.pidQueue ++ ob.newPids })

/-- The `while p.is_alive():` loop (lines 282-314).  Returns the loop state
at exit and, when the loop was broken by the timeout branch (line 312), the
observation of the breaking iteration. -/
def superviseLoop : List IterObs → LoopState → LoopState × Option IterObs
  | [], ls => (ls, none)
  | ob :: rest, ls =>
      let ls2 := iterStep ob ls
      if ob.over then (ls2, some ob) else superviseLoop rest ls2

/-- The iterations the loop actually executes: everything up to and
including the first iteration whose deadline check fires. -/
def executedIters : List IterObs → List IterObs
  | [] => []
  | ob :: rest => if ob.over then [ob] else ob :: executedIters rest

/-- All log records enqueued during a list of iterations, in order. -/
def catLogs (iters : List IterObs) : List LogRec :=
  iters.foldr (fun ob acc => ob.newLogs ++ acc) []

/-- All pids enqueued during a list of iterations, in order. -/
def catPids (iters : List IterObs) : List Nat :=
  iters.foldr (fun ob acc => ob.newPids ++ acc) []

/-- The suffix appended to a timed-out file's entry in error_files_list
(line 311: `error_files_list.append(f"{input_path} (Timeout)")`). -/
def timeoutSuffix : String := " (Timeout)"

/-- The timeout marker entry for a given input path. -/
def timeoutMark (path : String) : String := path ++ timeoutSuffix

/-- The Batch Runner's accumulated counters (main.py lines 208-211). -/
structure BatchState where
  success_count : Nat
  error_count : Nat
  error_files_list : List String
deriving DecidableEq

/-- The post-loop classification, lines 326-340 and 351-363: the success
branch runs only when the process is seen dead (line 326) and the re-read
elapsed time is still within the deadline (line 330) and the exit code is
zero; independently, when no timeout marker for this path is present, any
exit code other than zero is counted as an error and the bare path is
appended to the failing list. -/
def classify (path : String) (aliveAtPost postOver : Bool)
    (exitcode : Option Int) (st : BatchState) : BatchState :=
  let st1 :=
    if !aliveAtPost && !postOver then
      if exitcode = some 0 then { st with success_count := st.success_count + 1 }
      else st
    else st
  if timeoutMark path ∈ st1.error_files_list then st1
  else if exitcode = some 0 then st1
  else { st1 with
    error_count := st1.error_count + 1,
    error_files_list := st1.error_files_list ++ [path] }

/-- Observable termination actions of the timeout branch (lines 302-308). -/
inductive TermEvent where
  | terminate
  | joinGrace
  | forceKill
  | treeKill (pid : Nat)
deriving DecidableEq

/-- The termination sequence performed by the timeout branch:
`p.terminate()`, `p.join(timeout=5)`, `p.kill()` if still alive, and
`kill_process_tree(excel_pid)` guarded by Python truthiness
(`if excel_pid:`, line 307), so a captured pid of 0 is skipped. -/
def timeoutTermEvents (ob : IterObs) (captured : Option Nat) : List TermEvent :=
  [TermEvent.terminate, TermEvent.joinGrace]
    ++ (if ob.aliveAfterGrace then [TermEvent.forceKill] else [])
    ++ (match captured with
        | some pid => if pid ≠ 0 then [TermEvent.treeKill pid] else []
        | none => [])

/-- Observable per-task outputs of one supervision. -/
structure SupOut where
  /-- records forwarded to the root logger (hence to every sink), in order. -/
  delivered : List LogRec
  /-- final value of excel_pid. -/
  captured : Option Nat
  /-- termination actions taken by the timeout branch. -/
  termEvents : List TermEvent
  /-- whether the loop was broken by the timeout branch. -/
  timedOut : Bool
deriving DecidableEq

/-- The exception escaping the timeout branch's tree-kill, if any: the
tree-kill runs only when the loop was broken by the timeout branch and a
Python-truthy (nonzero) pid was captured. -/
def treeKillEscape (world : PsWorld) (brk : Option IterObs) (captured : Option Nat) :
    Option PTError :=
  match brk, captured with
  | some _, some pid =>
      if pid ≠ 0 then (kill_process_tree world pid).2 else none
  | _, _ => none

/-- One full task supervision (lines 274-365), folding the outcome into the
batch counters.  Mirrored control flow: the loop; on a timeout break the
termination sequence including the truthiness-guarded tree-kill (whose
uncaught exception, if any, aborts the whole iteration body before the
error counter is touched), then the error count and marker append
(lines 310-311); the final drain (lines 318-323); the classification
blocks (lines 326-363). -/
def supervise (path : String) (tr : TaskTrace) (st : BatchState) :
    Except PTError (BatchState × SupOut) :=
  match superviseLoop tr.iters initLoopState with
  | (ls1, brk) =>
    match treeKillEscape tr.world brk ls1.captured with
    | some e => Except.error e
    | none =>
      let st1 :=
        match brk with
        | some _ => { st with
            error_count := st.error_count + 1,
            error_files_list := st.error_files_list ++ [timeoutMark path] }
        | none => st
      let ls2 := drainLogs { ls1 with logQueue := ls1.logQueue ++ tr.tailLogs }
      let aliveAtPost :=
        match brk with
        | some _ => tr.aliveAtPostCheck
        | none => false
      let st2 := classify path aliveAtPost tr.postOver tr.exitcode st1
      Except.ok (st2,
        { delivered := ls2.delivered
          captured := ls2.captured
          termEvents :=
            match brk with
            | some ob => timeoutTermEvents ob ls1.captured
            | none => []
          timedOut := brk.isSome })

/-- The Batch Runner (the `for input_path in office_files:` loop): one
supervision per task, strictly in order; an exception escaping a task's
supervision aborts the whole run. -/
def runBatch : List (String × TaskTrace) → BatchState → Except PTError BatchState
  | [], st => Except.ok st
  | (path, tr) :: rest, st =>
      match supervise path tr st with
      | Except.error e => Except.error e
      | Except.ok (st1, _) => runBatch rest st1

/-- Projection of an Except value onto its error, if any. -/
def exceptErr {α : Type} : Except PTError α → Option PTError
  | Except.error e => some e
  | Except.ok _ => none

/-- Whether an error_files_list entry carries the timeout marker. -/
def hasTimeoutMark (s : String) : Bool :=
  timeoutSuffix.data.isSuffixOf s.data

/-- The spec's ResultAggregate.timed_out tally, recovered from the code's
state: entries of error_files_list carrying the timeout marker. -/
def timed_out_count (st : BatchState) : Nat :=
  (st.error_files_list.filter hasTimeoutMark).length

/-- The spec's ResultAggregate.failure tally: errors not due to timeout. -/
def failure_count (st : BatchState) : Nat :=
  st.error_count - timed_out_count st

/-- The failing-task ids: error_files_list entries with the timeout marker
stripped. -/
def failing_ids (st : BatchState) : List String :=
  st.error_files_list.map (fun s =>
    if hasTimeoutMark s then
      String.mk (s.data.take (s.data.length - timeoutSuffix.data.length))
    else s)

/-! ### Worker harness and converter lifecycle
(main.py convert_worker lines 40-69; converter_interface.py
OfficeConverter.convert lines 173-237; converter.py
ExcelConverter.convert lines 124-200) -/

/-- Outcomes of the external COM calls made by one ExcelConverter.convert
invocation. -/
structure ComEnv where
  /-- `win32com.client.DispatchEx("Excel.Application")` succeeds. -/
  dispatchOk : Bool
  /-- result of `win32process.GetWindowThreadProcessId(excel.Hwnd)`:
  some pid on success, none when the lookup raises. -/
  pidCapture : Option Nat
  /-- `excel.Workbooks.Open(...)` succeeds. -/
  openOk : Bool
  /-- `workbook.ExportAsFixedFormat(...)` succeeds and produces output. -/
  exportOk : Bool
  /-- `workbook.Close(SaveChanges=False)` raises during cleanup. -/
  closeRaises : Bool
  /-- `excel.Quit()` raises during cleanup. -/
  quitRaises : Bool
deriving DecidableEq

/-- Observable events of one ExcelConverter.convert invocation. -/
inductive ComEvent where
  | coInit
  | genPyCleared
  | dispatched
  | pidPut (pid : Nat)
  | pidWarnLogged
  | workbookOpened
  | layoutOptimized
  | pdfExported
  | closeNoSaveAttempt
  | quitAttempt
  | cleanupErrorSwallowed
  | coUninit
deriving DecidableEq

/-- Result of one ExcelConverter.convert invocation: whether an exception
escaped the call (after the finally block ran), the event sequence, and the
pid written to the Handle Channel, if any. -/
structure ExcelRun where
  raised : Bool
  events : List ComEvent
  pidSent : Option Nat
deriving DecidableEq

/-- The finally block's `workbook.Close(SaveChanges=False)` attempt, whose
own exception is swallowed by `except: pass` (converter.py lines 190-194). -/
def closeEvents (env : ComEnv) : List ComEvent :=
  [ComEvent.closeNoSaveAttempt]
    ++ (if env.closeRaises then [ComEvent.cleanupErrorSwallowed] else [])

/-- The finally block's `excel.Quit()` attempt, whose own exception is
swallowed by `except: pass` (converter.py lines 195-199). -/
def quitEvents (env : ComEnv) : List ComEvent :=
  [ComEvent.quitAttempt]
    ++ (if env.quitRaises then [ComEvent.cleanupErrorSwallowed] else [])

/-- converter.py lines 124-200.  CoInitialize; clear the gen_py cache;
DispatchEx (on failure the try block raises with excel and workbook still
None, so the finally block attempts no Close and no Quit); the best-effort
pid capture (its failure only logs a warning, lines 142-148); Workbooks.Open
(on failure the finally block attempts Quit but no Close); layout
optimisation; ExportAsFixedFormat; on success the finally block attempts
Close(SaveChanges=False) then Quit.  Whatever happens, CoUninitialize runs
and the try block's outcome is returned or re-raised unchanged. -/
def ExcelConverter_convert (env : ComEnv) (pidQueueProvided : Bool) : ExcelRun :=
  let evs0 := [ComEvent.coInit, ComEvent.genPyCleared]
  if !env.dispatchOk then
    { raised := true, events := evs0 ++ [ComEvent.coUninit], pidSent := none }
  else
    let evs1 := evs0 ++ [ComEvent.dispatched]
    let sent : Option Nat :=
      if pidQueueProvided then env.pidCapture else none
    let evs2 := evs1 ++
      (if pidQueueProvided then
        match env.pidCapture with
        | some pid => [ComEvent.pidPut pid]
        | none => [ComEvent.pidWarnLogged]
      else [])
    if !env.openOk then
      { raised := true
        events := evs2 ++ quitEvents env ++ [ComEvent.coUninit]
        pidSent := sent }
    else
      let evs3 := evs2 ++ [ComEvent.workbookOpened, ComEvent.layoutOptimized]
      if !env.exportOk then
        { raised := true
          events := evs3 ++ closeEvents env ++ quitEvents env ++ [ComEvent.coUninit]
          pidSent := sent }
      else
        { raised := false
          events := evs3 ++ [ComEvent.pdfExported]
            ++ closeEvents env ++ quitEvents env ++ [ComEvent.coUninit]
          pidSent := sent }

/-- Environment of one convert_worker run. -/
structure WorkerEnv where
  /-- `os.path.exists(input_path)` (converter_interface.py line 188). -/
  inputExists : Bool
  /-- the extension is in CONVERTER_MAP (line 199). -/
  supportedType : Bool
  /-- the COM environment for the dispatched ExcelConverter.convert. -/
  com : ComEnv
deriving DecidableEq

/-- OfficeConverter.convert (converter_interface.py lines 173-237): a
missing input or unsupported extension yields a failed ConversionResult; an
exception raised by the concrete converter is caught and yields a failed
result; otherwise the result is success.  Returns the result's success
flag. -/
def OfficeConverter_convert (env : WorkerEnv) : Bool :=
  if !env.inputExists then false
  else if !env.supportedType then false
  else !(ExcelConverter_convert env.com true).raised

/-- convert_worker (main.py lines 40-69) raises exactly when the
ConversionResult it got back is not a success (`if not result.success:
raise`), and an uncaught exception in a multiprocessing child makes the
process exit nonzero. -/
def convert_worker_raises (env : WorkerEnv) : Bool :=
  !(OfficeConverter_convert env)

/-- The worker process exit status: 0 on a clean return, 1 when the worker
function raised. -/
def workerExitcode (env : WorkerEnv) : Int :=
  if convert_worker_raises env then 1 else 0

/-! ### Concrete traces and environments used by the individual claims -/

/-- The batch counters before any task has been folded. -/
def emptyBatch : BatchState :=
  { success_count := 0, error_count := 0, error_files_list := [] }

/-- A psutil world with no processes at all (no tree-kill will run). -/
def quietWorld : PsWorld :=
  { alive := [], childrenMap := [], protectedPids := [], raceDeaths := [] }

/-- A worker that exits on its own with status 0 just before the deadline:
the one executed liveness iteration still sees the deadline unexpired
(`over = false`), but the re-read of the clock at line 330 lands past the
deadline (`postOver = true`). -/
def c1trace : TaskTrace :=
  { iters := [{ newLogs := [], newPids := [], over := false, aliveAfterGrace := false }]
    tailLogs := [], postOver := true, aliveAtPostCheck := false
    exitcode := some 0, world := quietWorld }

/-- Same clock race as `c1trace`, for a worker that logged two records and
exited with status 0 after two liveness iterations. -/
def c2trace : TaskTrace :=
  { iters := [{ newLogs := [3], newPids := [], over := false, aliveAfterGrace := false },
              { newLogs := [4], newPids := [], over := false, aliveAfterGrace := false }]
    tailLogs := [5], postOver := true, aliveAtPostCheck := false
    exitcode := some 0, world := quietWorld }

/-- A timed-out task whose worker reported the external process identifier
0 (the value `win32process.GetWindowThreadProcessId` yields when the window
handle lookup fails): it is captured from the Handle Channel, yet Python
truthiness at line 307 (`if excel_pid:`) skips the tree-kill. -/
def c3trace : TaskTrace :=
  { iters := [{ newLogs := [], newPids := [0], over := true, aliveAfterGrace := true }]
    tailLogs := [], postOver := true, aliveAtPostCheck := false
    exitcode := some (-15), world := quietWorld }

/-- C5's world: root 1 with children 2 and 3 all alive at entry; child 2
exits on its own between the enumeration and its kill attempt. -/
def cw5 : PsWorld :=
  { alive := [1, 2, 3], childrenMap := [(1, [2, 3])], protectedPids := [], raceDeaths := [] }

/-- `cw5` with the mid-enumeration death of child 2. -/
def cw5race : PsWorld := { cw5 with raceDeaths := [2] }

/-- A dead-pid world for the terminator idempotence witness. -/
def deadWorld : PsWorld :=
  { alive := [5], childrenMap := [], protectedPids := [], raceDeaths := [] }

/-- Task 1 of the C4 scenario: succeeds within its deadline. -/
def c4trace1 : TaskTrace :=
  { iters := [{ newLogs := [10], newPids := [], over := false, aliveAfterGrace := false }]
    tailLogs := [11], postOver := false, aliveAtPostCheck := false
    exitcode := some 0, world := quietWorld }

/-- Task 2 of the C4 scenario: reports external pid 7, then times out; the
supervisor tree-kills pid 7 (alive, unprotected, no children). -/
def c4trace2 : TaskTrace :=
  { iters := [{ newLogs := [], newPids := [7], over := true, aliveAfterGrace := false }]
    tailLogs := [], postOver := true, aliveAtPostCheck := false
    exitcode := some (-15)
    world := { alive := [7], childrenMap := [], protectedPids := [], raceDeaths := [] } }

/-- Task 3 of the C4 scenario: exits 0 immediately, trailing log only. -/
def c4trace3 : TaskTrace :=
  { iters := []
    tailLogs := [12], postOver := false, aliveAtPostCheck := false
    exitcode := some 0, world := quietWorld }

/-- A timed-out task whose captured external process is protected: its kill
raises psutil.AccessDenied, which `kill_process_tree` does not catch. -/
def c8badTrace : TaskTrace :=
  { iters := [{ newLogs := [], newPids := [9], over := true, aliveAfterGrace := false }]
    tailLogs := [], postOver := true, aliveAtPostCheck := false
    exitcode := some (-15)
    world := { alive := [9], childrenMap := [], protectedPids := [9], raceDeaths := [] } }

/-- A worker that enqueues logs 1 and 2 during the loop and log 3 in the
window between the last in-loop drain and its exit. -/
def c6trace : TaskTrace :=
  { iters := [{ newLogs := [1], newPids := [], over := false, aliveAfterGrace := false },
              { newLogs := [2], newPids := [], over := false, aliveAfterGrace := false }]
    tailLogs := [3], postOver := false, aliveAtPostCheck := false
    exitcode := some 0, world := quietWorld }

/-- A timed-out task with captured nonzero pid 7, for the C9 witness. -/
def c9trace : TaskTrace :=
  { iters := [{ newLogs := [], newPids := [7, 8], over := true, aliveAfterGrace := false }]
    tailLogs := [], postOver := true, aliveAtPostCheck := false
    exitcode := some (-15)
    world := { alive := [7], childrenMap := [], protectedPids := [], raceDeaths := [] } }

/-- A loop state that has already captured pid 5. -/
def capturedState : LoopState :=
  { logQueue := [], pidQueue := [], delivered := [], captured := some 5 }

/-- A fully successful worker environment. -/
def envAllOk : WorkerEnv :=
  { inputExists := true, supportedType := true
    com := { dispatchOk := true, pidCapture := some 42, openOk := true
             exportOk := true, closeRaises := false, quitRaises := false } }

/-- A COM environment whose export fails and whose cleanup quit raises. -/
def comEnvMixed : ComEnv :=
  { dispatchOk := true, pidCapture := none, openOk := true
    exportOk := false, closeRaises := false, quitRaises := true }

/-- Does a termination event list entry perform a tree-kill? -/
def isTreeKill : TermEvent → Bool
  | TermEvent.treeKill _ => true
  | _ => false

instance {α : Type} [DecidableEq α] : DecidableEq (Except PTError α) := fun a b =>
  match a, b with
  | Except.ok x, Except.ok y =>
      if h : x = y then isTrue (h ▸ rfl) else isFalse (fun hc => h (Except.ok.inj hc))
  | Except.error e1, Except.error e2 =>
      if h : e1 = e2 then isTrue (h ▸ rfl) else isFalse (fun hc => h (Except.error.inj hc))
  | Except.ok _, Except.error _ => isFalse (fun hc => Except.noConfusion hc)
  | Except.error _, Except.ok _ => isFalse (fun hc => Except.noConfusion hc)

/-! ### Helper lemmas -/

/-- With no protected pids, a single kill attempt can only succeed or raise
NoSuchProcess. -/
theorem killAttempt_no_accessDenied (alive : List Nat) (pid : Nat) :
    killAttempt [] alive pid ≠ KillRes.err PTError.accessDenied := by
  unfold killAttempt
  by_cases h : pid ∈ alive <;> simp [h]

/-- With no protected pids, the child-kill loop never stops with
AccessDenied. -/
theorem killList_no_accessDenied (ps : List Nat) :
    ∀ alive : List Nat, (killList [] alive ps).2 ≠ some PTError.accessDenied := by
  induction ps with
  | nil => intro alive; simp [killList]
  | cons p rest ih =>
      intro alive
      unfold killList
      rcases hk : killAttempt [] alive p with alive2 | e
      · exact ih alive2
      · cases e with
        | noSuchProcess => simp
        | accessDenied => exact absurd hk (killAttempt_no_accessDenied alive p)

/-- The only exception `kill_process_tree` lets escape is AccessDenied:
NoSuchProcess is always caught by its `except` clause. -/
theorem kill_process_tree_never_noSuchProcess (w : PsWorld) (pid : Nat) :
    (kill_process_tree w pid).2 ≠ some PTError.noSuchProcess := by
  unfold kill_process_tree
  by_cases h : pid ∈ w.alive
  · simp only [h, if_true]
    rcases hkl : killList w.protectedPids
        (w.alive.filter (fun q => !(w.raceDeaths.contains q))) (descendants w pid) with ⟨st2, e⟩
    rcases e with _ | e
    · rcases hka : killAttempt w.protectedPids st2 pid with st3 | e2
      · simp [hkl, hka]
      · cases e2 <;> simp [hkl, hka]
    · cases e <;> simp [hkl]
  · simp [h]

/-- With no protected pids, `kill_process_tree` lets no exception at all
escape. -/
theorem kill_process_tree_total_of_no_protected (w : PsWorld) (pid : Nat)
    (h : w.protectedPids = []) : (kill_process_tree w pid).2 = none := by
  unfold kill_process_tree
  by_cases hm : pid ∈ w.alive
  · simp only [hm, if_true, h]
    rcases hkl : killList []
        (w.alive.filter (fun q => !(w.raceDeaths.contains q))) (descendants w pid) with ⟨st2, e⟩
    rcases e with _ | e
    · rcases hka : killAttempt [] st2 pid with st3 | e2
      · simp [hkl, hka]
      · cases e2 with
        | noSuchProcess => simp [hkl, hka]
        | accessDenied => exact absurd hka (killAttempt_no_accessDenied st2 pid)
    · cases e with
      | noSuchProcess => simp [hkl]
      | accessDenied =>
          have := killList_no_accessDenied (descendants w pid)
            (w.alive.filter (fun q => !(w.raceDeaths.contains q)))
          rw [hkl] at this
          simp at this
  · simp [hm]

/-- Calling the terminator on an already-dead pid changes nothing and lets
nothing escape (`psutil.Process(pid)` raises NoSuchProcess, which the
`except` clause turns into a no-op). -/
theorem kill_process_tree_dead (w : PsWorld) (pid : Nat) (h : pid ∉ w.alive) :
    kill_process_tree w pid = (w.alive, none) := by
  unfold kill_process_tree
  simp [h]

theorem catLogs_nil : catLogs [] = [] := rfl

theorem catLogs_cons (ob : IterObs) (rest : List IterObs) :
    catLogs (ob :: rest) = ob.newLogs ++ catLogs rest := rfl

theorem catPids_nil : catPids [] = [] := rfl

theorem catPids_cons (ob : IterObs) (rest : List IterObs) :
    catPids (ob :: rest) = ob.newPids ++ catPids rest := rfl

theorem executedIters_nil : executedIters [] = [] := rfl

theorem executedIters_cons (ob : IterObs) (rest : List IterObs) :
    executedIters (ob :: rest) = if ob.over then [ob] else ob :: executedIters rest := rfl

theorem drainLogs_delivered (ls : LoopState) :
    (drainLogs ls).delivered = ls.delivered ++ ls.logQueue := rfl

theorem drainLogs_logQueue (ls : LoopState) : (drainLogs ls).logQueue = [] := rfl

theorem drainLogs_captured (ls : LoopState) : (drainLogs ls).captured = ls.captured := rfl

theorem checkPid_delivered (ls : LoopState) : (checkPid ls).delivered = ls.delivered := by
  rcases h1 : ls.captured with _ | v <;> rcases h2 : ls.pidQueue with _ | ⟨p, rest⟩ <;>
    simp [checkPid, h1, h2]

theorem checkPid_logQueue (ls : LoopState) : (checkPid ls).logQueue = ls.logQueue := by
  rcases h1 : ls.captured with _ | v <;> rcases h2 : ls.pidQueue with _ | ⟨p, rest⟩ <;>
    simp [checkPid, h1, h2]

theorem checkPid_captured_some (ls : LoopState) (v : Nat) (h : ls.captured = some v) :
    (checkPid ls).captured = some v := by
  rcases h2 : ls.pidQueue with _ | ⟨p, rest⟩ <;> simp [checkPid, h, h2]

theorem iterStep_delivered (ob : IterObs) (ls : LoopState) :
    (iterStep ob ls).delivered = ls.delivered ++ (ls.logQueue ++ ob.newLogs) := by
  simp [iterStep, checkPid_delivered, drainLogs]

theorem iterStep_logQueue (ob : IterObs) (ls : LoopState) :
    (iterStep ob ls).logQueue = [] := by
  simp [iterStep, checkPid_logQueue, drainLogs]

theorem iterStep_captured_some (ob : IterObs) (ls : LoopState) (v : Nat)
    (h : ls.captured = some v) : (iterStep ob ls).captured = some v := by
  apply checkPid_captured_some
  simp [drainLogs, h]

/-- Forwarding invariant of the liveness loop: on a natural exit, the
records forwarded so far plus the records still queued are exactly the
initial backlog followed by every record that arrived, in order. -/
theorem superviseLoop_delivered_inv (iters : List IterObs) :
    ∀ ls : LoopState, (superviseLoop iters ls).2 = none →
      (superviseLoop iters ls).1.delivered ++ (superviseLoop iters ls).1.logQueue
        = ls.delivered ++ (ls.logQueue ++ catLogs iters) := by
  induction iters with
  | nil => intro ls _; simp [superviseLoop, catLogs_nil]
  | cons ob rest ih =>
      intro ls h
      rcases hov : ob.over with _ | _
      · simp only [superviseLoop, hov, Bool.false_eq_true, if_false] at h ⊢
        rw [ih _ h]
        simp [iterStep_delivered, iterStep_logQueue, catLogs_cons]
      · simp [superviseLoop, hov] at h
/-- Once `excel_pid` holds a value, no later iteration overwrites it. -/
theorem superviseLoop_captured_mono (iters : List IterObs) :
    ∀ (ls : LoopState) (v : Nat), ls.captured = some v →
      (superviseLoop iters ls).1.captured = some v := by
  induction iters with
  | nil => intro ls v h; simpa [superviseLoop] using h
  | cons ob rest ih =>
      intro ls v h
      rcases hov : ob.over with _ | _
      · simp only [superviseLoop, hov, Bool.false_eq_true, if_false]
        exact ih _ v (iterStep_captured_some ob ls v h)
      · simp only [superviseLoop, hov, if_true]
        exact iterStep_captured_some ob ls v h

/-- Starting from an empty pid queue and no capture, the loop ends with
`excel_pid` holding exactly the first identifier the worker enqueued during
the executed iterations, if any. -/
theorem superviseLoop_captured_head (iters : List IterObs) :
    ∀ lq d : List LogRec,
      (superviseLoop iters
        { logQueue := lq, pidQueue := [], delivered := d, captured := none }).1.captured
        = (catPids (executedIters iters)).head? := by
  induction iters with
  | nil => intro lq d; simp [superviseLoop, executedIters_nil, catPids_nil]
  | cons ob rest ih =>
      intro lq d
      rcases hp : ob.newPids with _ | ⟨p, ps⟩
      · have hstep : iterStep ob { logQueue := lq, pidQueue := [], delivered := d, captured := none }
            = { logQueue := [], pidQueue := [], delivered := d ++ (lq ++ ob.newLogs),
                captured := none } := by
          simp [iterStep, drainLogs, checkPid, hp]
        rcases hov : ob.over with _ | _
        · simp only [superviseLoop, hov, Bool.false_eq_true, if_false, hstep]
          rw [ih [] (d ++ (lq ++ ob.newLogs))]
          simp [executedIters_cons, hov, catPids_cons, hp]
        · simp only [superviseLoop, hov, if_true, hstep]
          simp [executedIters_cons, hov, catPids_cons, hp, catPids_nil]
      · have hstep : iterStep ob { logQueue := lq, pidQueue := [], delivered := d, captured := none }
            = { logQueue := [], pidQueue := ps, delivered := d ++ (lq ++ ob.newLogs),
                captured := some p } := by
          simp [iterStep, drainLogs, checkPid, hp]
        rcases hov : ob.over with _ | _
        · simp only [superviseLoop, hov, Bool.false_eq_true, if_false, hstep]
          rw [superviseLoop_captured_mono rest _ p rfl]
          simp [executedIters_cons, hov, catPids_cons, hp]
        · simp only [superviseLoop, hov, if_true, hstep]
          simp [executedIters_cons, hov, catPids_cons, hp]

/-- A tree-kill event appears in the timeout termination sequence exactly
for a captured, nonzero (Python-truthy) identifier, and then carries that
identifier. -/
theorem treeKill_mem_timeoutTermEvents (ob : IterObs) (c : Option Nat) (q : Nat) :
    TermEvent.treeKill q ∈ timeoutTermEvents ob c ↔ (c = some q ∧ q ≠ 0) := by
  rcases c with _ | pid
  · rcases h : ob.aliveAfterGrace with _ | _ <;> simp [timeoutTermEvents, h]
  · by_cases hp : pid = 0
    · subst hp
      rcases h : ob.aliveAfterGrace with _ | _ <;> simp [timeoutTermEvents, h] <;>
        exact fun hq => hq.symm
    · rcases h : ob.aliveAfterGrace with _ | _ <;> simp [timeoutTermEvents, h, hp] <;>
        exact ⟨fun hq => ⟨hq.symm, by rw [hq]; exact hp⟩, fun hq => hq.1.symm⟩

/-- With no protected pids, the tree-kill lets nothing escape. -/
theorem treeKillEscape_none_of_no_protected (world : PsWorld) (brk : Option IterObs)
    (captured : Option Nat) (h : world.protectedPids = []) :
    treeKillEscape world brk captured = none := by
  rcases brk with _ | ob
  · rfl
  · rcases captured with _ | pid
    · rfl
    · by_cases hp : pid = 0
      · simp [treeKillEscape, hp]
      · simp [treeKillEscape, hp, kill_process_tree_total_of_no_protected world pid h]

/-- On a natural loop exit, supervision raises nothing: the final drain
runs and the post-loop classification is applied with the line-326
liveness check trivially false. -/
theorem supervise_natural (path : String) (tr : TaskTrace) (st : BatchState)
    (ls1 : LoopState) (hE : superviseLoop tr.iters initLoopState = (ls1, none)) :
    supervise path tr st = Except.ok
      (classify path false tr.postOver tr.exitcode st,
       { delivered := ls1.delivered ++ (ls1.logQueue ++ tr.tailLogs)
         captured := ls1.captured
         termEvents := []
         timedOut := false }) := by
  unfold supervise
  rw [hE]
  simp [treeKillEscape, drainLogs]

/-- On a timeout break whose tree-kill does not raise, supervision counts
the error, appends the timeout marker, drains, and classifies with the
trace's line-326 liveness observation. -/
theorem supervise_timeout (path : String) (tr : TaskTrace) (st : BatchState)
    (ls1 : LoopState) (ob : IterObs)
    (hE : superviseLoop tr.iters initLoopState = (ls1, some ob))
    (hEsc : treeKillEscape tr.world (some ob) ls1.captured = none) :
    supervise path tr st = Except.ok
      (classify path tr.aliveAtPostCheck tr.postOver tr.exitcode
        { st with error_count := st.error_count + 1
                  error_files_list := st.error_files_list ++ [timeoutMark path] },
       { delivered := ls1.delivered ++ (ls1.logQueue ++ tr.tailLogs)
         captured := ls1.captured
         termEvents := timeoutTermEvents ob ls1.captured
         timedOut := true }) := by
  unfold supervise
  rw [hE]
  simp only []
  rw [hEsc]
  simp [drainLogs]

/-- On a timeout break whose tree-kill raises, the exception escapes the
supervision before any counter is touched. -/
theorem supervise_escape (path : String) (tr : TaskTrace) (st : BatchState)
    (ls1 : LoopState) (ob : IterObs) (e : PTError)
    (hE : superviseLoop tr.iters initLoopState = (ls1, some ob))
    (hEsc : treeKillEscape tr.world (some ob) ls1.captured = some e) :
    supervise path tr st = Except.error e := by
  unfold supervise
  rw [hE]
  simp only []
  rw [hEsc]

/-- A supervision over a world with no protected pids returns normally. -/
theorem supervise_no_escape (path : String) (tr : TaskTrace) (st : BatchState)
    (h : tr.world.protectedPids = []) : exceptErr (supervise path tr st) = none := by
  rcases hE : superviseLoop tr.iters initLoopState with ⟨ls1, brk⟩
  rcases brk with _ | ob
  · rw [supervise_natural path tr st ls1 hE]; rfl
  · rw [supervise_timeout path tr st ls1 ob hE
        (treeKillEscape_none_of_no_protected tr.world (some ob) ls1.captured h)]
    rfl

/-- When the timeout marker for this path is already on the failing list,
the classification blocks leave both error fields unchanged. -/
theorem classify_marked (path : String) (a b : Bool) (ec : Option Int) (st : BatchState)
    (h : timeoutMark path ∈ st.error_files_list) :
    (classify path a b ec st).error_count = st.error_count ∧
    (classify path a b ec st).error_files_list = st.error_files_list := by
  unfold classify
  by_cases h1 : (!a && !b) = true
  · by_cases h2 : ec = some 0 <;> simp [h1, h2, h]
  · simp [h1, h]

/-! ### Claim theorems -/

/-- C1: the claim says every dispatched Task receives exactly one terminal
Outcome — never zero times.  The code violates this: for the dispatched
task of `c1trace`, whose worker exits on its own with status 0 (the loop
was never broken by the timeout branch, `timedOut = false`) while the
re-read of the clock at line 330 lands past the deadline, the run completes
with the success count, the error count and the failing list all untouched:
the task is counted zero times. -/
theorem C1_zero_outcomes_bug :
    c1trace.exitcode = some 0 ∧
    (supervise "fileA" c1trace emptyBatch).toOption.map
        (fun r => (r.1.success_count, r.1.error_count, r.1.error_files_list, r.2.timedOut))
      = some (0, 0, [], false) := by decide

/-- C2: the claim says a worker whose loop was not broken by the timeout
branch and whose exit status is 0 always yields Success.  The code violates
this: for `c2trace` the worker exits on its own with status 0
(`timedOut = false`), yet because the post-loop clock re-read at line 330
lands past the deadline, `success_count` is not incremented — no Success is
recorded. -/
theorem C2_exit_zero_not_success_bug :
    c2trace.exitcode = some 0 ∧
    (supervise "fileB" c2trace emptyBatch).toOption.map
        (fun r => (r.1.success_count, r.2.timedOut))
      = some (0, false) := by decide

/-- C4: for a batch of 3 tasks in which task 2 times out and tasks 1 and 3
each succeed, the final aggregate is success = 2, failure = 0,
timed_out = 1 (the timed-out task is tallied separately from plain
failures, via the timeout marker on its failing-list entry), and the
failing-task list contains exactly task 2's id. -/
theorem C4_scenario :
    ((runBatch [("task1", c4trace1), ("task2", c4trace2), ("task3", c4trace3)]
        emptyBatch).toOption.map
        (fun st => (st.success_count, st.error_count, st.error_files_list))
      = some (2, 1, [timeoutMark "task2"])) ∧
    ((runBatch [("task1", c4trace1), ("task2", c4trace2), ("task3", c4trace3)]
        emptyBatch).toOption.map
        (fun st => (failure_count st, timed_out_count st, failing_ids st))
      = some (0, 1, ["task2"])) := by decide

/-- C5 counterexample: the claim says a process dying mid-enumeration does
not prevent the remaining descendants and the root from being killed.  In
`cw5race`, descendant 3 is alive, enumerated, and not racing, yet after the
call both 3 and the root 1 are still alive, because descendant 2 died
between enumeration and its kill and the resulting NoSuchProcess — caught
only at the whole-call boundary — aborted the remaining kill attempts. -/
theorem C5_counterexample :
    (3 ∈ descendants cw5race 1 ∧ 3 ∈ cw5race.alive ∧
      cw5race.raceDeaths.contains 3 = false) ∧
    kill_process_tree cw5race 1 = ([1, 3], none) := by decide

/-- C5 amended: the Process-Tree Terminator attempts the descendants and
then the root, but tolerates "process no longer exists" only at the
whole-call granularity: the first NoSuchProcess aborts the remaining kill
attempts, yet is never raised past the call's boundary; calling the
terminator on an already-dead pid (hence calling it twice) is a no-op that
does not raise; and when no kill can raise AccessDenied, no exception at
all escapes. -/
theorem C5_terminator_amended :
    (∀ (w : PsWorld) (pid : Nat),
        (kill_process_tree w pid).2 ≠ some PTError.noSuchProcess) ∧
    (∀ (w : PsWorld) (pid : Nat), pid ∉ w.alive →
        kill_process_tree w pid = (w.alive, none)) ∧
    (∀ (w : PsWorld) (pid : Nat), w.protectedPids = [] →
        (kill_process_tree w pid).2 = none) :=
  ⟨kill_process_tree_never_noSuchProcess, kill_process_tree_dead,
   kill_process_tree_total_of_no_protected⟩

/-- C5 amended, witness: a dead-pid call is a no-op, and the run of the
counterexample world (no protected pids) lets nothing escape. -/
theorem C5_terminator_amended_witness :
    kill_process_tree deadWorld 4 = (deadWorld.alive, none) ∧
    (kill_process_tree cw5race 1).2 = none :=
  ⟨C5_terminator_amended.2.1 deadWorld 4 (by decide),
   C5_terminator_amended.2.2 cw5race 1 (by decide)⟩

/-- C8 counterexample: the claim says no exception — including one arising
during termination of the worker's process tree — ever bubbles up to the
batch loop.  But `kill_process_tree` catches only NoSuchProcess, so when
task t1's captured external process is protected (its kill raises
psutil.AccessDenied), the exception escapes the supervision and aborts the
whole batch: the run ends in an error and task t2 is never folded. -/
theorem C8_counterexample :
    exceptErr (runBatch [("t1", c8badTrace), ("t2", c4trace3)] emptyBatch)
      = some PTError.accessDenied := by decide

/-- C8 amended: a ConversionFailure or Timeout of one task never aborts the
batch iteration, and a "process no longer exists" condition during tree
termination never bubbles up; as long as no termination attempt raises an
exception other than NoSuchProcess (no protected pids), the batch runner
processes every task and no exception escapes it. -/
theorem C8_batch_amended :
    ∀ (tasks : List (String × TaskTrace)) (st : BatchState),
      (∀ x ∈ tasks, x.2.world.protectedPids = []) →
      exceptErr (runBatch tasks st) = none := by
  intro tasks
  induction tasks with
  | nil => intro st _; rfl
  | cons t rest ih =>
      intro st h
      rcases t with ⟨path, tr⟩
      have h1 : tr.world.protectedPids = [] := h (path, tr) (List.mem_cons_self _ _)
      have h2 := supervise_no_escape path tr st h1
      rcases hs : supervise path tr st with e | pr
      · rw [hs] at h2; simp [exceptErr] at h2
      · rcases pr with ⟨st1, out⟩
        have hstep : runBatch ((path, tr) :: rest) st = runBatch rest st1 := by
          simp only [runBatch, hs]
        rw [hstep]
        exact ih st1 (fun x hx => h x (List.mem_cons_of_mem _ hx))

/-- C8 amended, witness: a concrete two-task batch (one success, one
crash-free finish) over unprotected worlds runs to completion. -/
theorem C8_batch_amended_witness :
    exceptErr (runBatch [("b1", c4trace1), ("b2", c4trace3)] emptyBatch) = none :=
  C8_batch_amended [("b1", c4trace1), ("b2", c4trace3)] emptyBatch (by decide)

/-- C3 counterexample: the claim says the Process-Tree Terminator is
invoked if and only if an ExternalProcessRef was captured.  In `c3trace`
the worker reports the identifier 0 and the supervisor captures it
(`captured = some 0`), yet the termination sequence contains no tree-kill
step, because line 307 guards the call with Python truthiness
(`if excel_pid:`) and 0 is falsy. -/
theorem C3_counterexample :
    (supervise "t3" c3trace emptyBatch).toOption.map
        (fun r => (r.2.captured, r.2.termEvents, r.2.timedOut))
      = some (some 0,
          [TermEvent.terminate, TermEvent.joinGrace, TermEvent.forceKill], true) ∧
    ([TermEvent.terminate, TermEvent.joinGrace,
        TermEvent.forceKill].any isTreeKill) = false := by decide

/-- C3 amended: on a timeout break (that returns, i.e. whose tree-kill does
not raise), the supervisor terminates the worker with graceful terminate,
the bounded grace join, then forced kill exactly when the worker is still
alive after the grace period; it invokes the Process-Tree Terminator if and
only if a nonzero (Python-truthy) ExternalProcessRef was captured — a
worker that reported none, or that reported 0, is terminated with no
tree-kill step; and the task is classified as timed out: the error count
grows by one and the marker entry is appended to the failing list. -/
theorem C3_timeout_termination (path : String) (tr : TaskTrace) (st st' : BatchState)
    (out : SupOut) (ls1 : LoopState) (ob : IterObs)
    (hE : superviseLoop tr.iters initLoopState = (ls1, some ob))
    (hok : supervise path tr st = Except.ok (st', out)) :
    out.timedOut = true ∧
    out.termEvents = timeoutTermEvents ob ls1.captured ∧
    st'.error_count = st.error_count + 1 ∧
    st'.error_files_list = st.error_files_list ++ [timeoutMark path] ∧
    ((∃ p, TermEvent.treeKill p ∈ out.termEvents) ↔
      (∃ p, ls1.captured = some p ∧ p ≠ 0)) := by
  rcases hEsc : treeKillEscape tr.world (some ob) ls1.captured with _ | e
  · rw [supervise_timeout path tr st ls1 ob hE hEsc] at hok
    simp only [Except.ok.injEq, Prod.mk.injEq] at hok
    obtain ⟨h1, h2⟩ := hok
    subst h1
    subst h2
    have hmem : timeoutMark path ∈ st.error_files_list ++ [timeoutMark path] := by simp
    have hcl := classify_marked path tr.aliveAtPostCheck tr.postOver tr.exitcode
      { st with error_count := st.error_count + 1
                error_files_list := st.error_files_list ++ [timeoutMark path] } hmem
    refine ⟨rfl, rfl, ?_, ?_, ?_⟩
    · rw [hcl.1]
    · rw [hcl.2]
    · constructor
      · rintro ⟨p, hp⟩
        exact ⟨p, (treeKill_mem_timeoutTermEvents ob ls1.captured p).1 hp⟩
      · rintro ⟨p, hp⟩
        exact ⟨p, (treeKill_mem_timeoutTermEvents ob ls1.captured p).2 hp⟩
  · rw [supervise_escape path tr st ls1 ob e hE hEsc] at hok
    simp at hok

/-- C3 amended, witness: a timed-out task that reported pid 7 and whose
worker survived the grace period is terminated with
terminate, grace join, forced kill is absent here (worker died in grace),
tree-kill of 7; error tallied once with its marker. -/
theorem C3_timeout_termination_witness :
    ((supervise "w3" c9trace emptyBatch).toOption.map (fun r => r.2.termEvents)
        = some [TermEvent.terminate, TermEvent.joinGrace, TermEvent.treeKill 7]) ∧
    (let ls1 := (superviseLoop c9trace.iters initLoopState).1
     (∃ p, TermEvent.treeKill p ∈
        [TermEvent.terminate, TermEvent.joinGrace, TermEvent.treeKill 7]) ↔
      (∃ p, ls1.captured = some p ∧ p ≠ 0)) := by
  constructor
  · decide
  · exact (C3_timeout_termination "w3" c9trace emptyBatch
      { success_count := 0, error_count := 1, error_files_list := [timeoutMark "w3"] }
      { delivered := [], captured := some 7,
        termEvents := [TermEvent.terminate, TermEvent.joinGrace, TermEvent.treeKill 7],
        timedOut := true }
      { logQueue := [], pidQueue := [8], delivered := [], captured := some 7 }
      { newLogs := [], newPids := [7, 8], over := true, aliveAfterGrace := false }
      (by decide) (by decide)).2.2.2.2

/-- C6: the log records a worker enqueues are delivered to the sinks in
enqueue order with no gaps: on a natural loop exit, the records forwarded
over the whole supervision are exactly the records that arrived during the
loop iterations followed by the records found by the one final non-blocking
drain — in particular the records enqueued between the last liveness-loop
drain and the worker's exit are all captured. -/
theorem C6_log_order (path : String) (tr : TaskTrace) (st st' : BatchState)
    (out : SupOut)
    (hnat : (superviseLoop tr.iters initLoopState).2 = none)
    (hok : supervise path tr st = Except.ok (st', out)) :
    out.delivered = catLogs tr.iters ++ tr.tailLogs := by
  have hinv := superviseLoop_delivered_inv tr.iters initLoopState hnat
  rcases hE : superviseLoop tr.iters initLoopState with ⟨ls1, brk⟩
  rw [hE] at hnat hinv
  simp only [] at hnat
  subst hnat
  simp only [initLoopState, List.nil_append] at hinv
  rw [supervise_natural path tr st ls1 hE] at hok
  simp only [Except.ok.injEq, Prod.mk.injEq] at hok
  obtain ⟨_, h2⟩ := hok
  subst h2
  simp only []
  rw [← hinv]
  simp [List.append_assoc]

/-- C6 witness: records 1 and 2 arrive during the loop, record 3 in the
exit window; all three reach the sinks in order. -/
theorem C6_log_order_witness :
    ((superviseLoop c6trace.iters initLoopState).2 = none) ∧
    (supervise "w6" c6trace emptyBatch = Except.ok
      ({ success_count := 1, error_count := 0, error_files_list := [] },
       { delivered := [1, 2, 3], captured := none, termEvents := [], timedOut := false })) ∧
    ([1, 2, 3] : List LogRec) = catLogs c6trace.iters ++ c6trace.tailLogs := by
  refine ⟨by decide, by decide, ?_⟩
  exact C6_log_order "w6" c6trace emptyBatch
    { success_count := 1, error_count := 0, error_files_list := [] }
    { delivered := [1, 2, 3], captured := none, termEvents := [], timedOut := false }
    (by decide) (by decide)

/-- C9: during one task's supervision the Handle Channel is polled only
while no identifier has been captured: once `excel_pid` holds a value no
later iteration overwrites it; starting from the empty channel the captured
value is exactly the first identifier the worker enqueued during the
executed iterations; and any tree-kill performed on timeout targets exactly
that captured (first-enqueued) identifier. -/
theorem C9_pid_capture :
    (∀ (iters : List IterObs) (ls : LoopState) (v : Nat),
        ls.captured = some v → (superviseLoop iters ls).1.captured = some v) ∧
    (∀ iters : List IterObs,
        (superviseLoop iters initLoopState).1.captured
          = (catPids (executedIters iters)).head?) ∧
    (∀ (path : String) (tr : TaskTrace) (st st' : BatchState) (out : SupOut) (q : Nat),
        supervise path tr st = Except.ok (st', out) →
        TermEvent.treeKill q ∈ out.termEvents → out.captured = some q) := by
  refine ⟨fun iters => superviseLoop_captured_mono iters,
          fun iters => superviseLoop_captured_head iters [] [],
          ?_⟩
  intro path tr st st' out q hok hmem
  rcases hE : superviseLoop tr.iters initLoopState with ⟨ls1, brk⟩
  rcases brk with _ | ob
  · rw [supervise_natural path tr st ls1 hE] at hok
    simp only [Except.ok.injEq, Prod.mk.injEq] at hok
    obtain ⟨_, h2⟩ := hok
    subst h2
    simp at hmem
  · rcases hEsc : treeKillEscape tr.world (some ob) ls1.captured with _ | e
    · rw [supervise_timeout path tr st ls1 ob hE hEsc] at hok
      simp only [Except.ok.injEq, Prod.mk.injEq] at hok
      obtain ⟨_, h2⟩ := hok
      subst h2
      simp only [] at hmem ⊢
      exact ((treeKill_mem_timeoutTermEvents ob ls1.captured q).1 hmem).1
    · rw [supervise_escape path tr st ls1 ob e hE hEsc] at hok
      simp at hok

/-- C9 witness: a pre-captured pid 5 persists through an empty loop; the
captured pid of `c9trace` is the first of the two enqueued identifiers;
and the tree-kill of its timeout targets that captured pid 7. -/
theorem C9_pid_capture_witness :
    ((superviseLoop [] capturedState).1.captured = some 5) ∧
    ((superviseLoop c9trace.iters initLoopState).1.captured
        = (catPids (executedIters c9trace.iters)).head?) ∧
    (SupOut.captured
      { delivered := [], captured := some 7,
        termEvents := [TermEvent.terminate, TermEvent.joinGrace, TermEvent.treeKill 7],
        timedOut := true } = some 7) :=
  ⟨C9_pid_capture.1 [] capturedState 5 (by decide),
   C9_pid_capture.2.1 c9trace.iters,
   C9_pid_capture.2.2 "z9" c9trace emptyBatch
     { success_count := 0, error_count := 1, error_files_list := [timeoutMark "z9"] }
     { delivered := [], captured := some 7,
       termEvents := [TermEvent.terminate, TermEvent.joinGrace, TermEvent.treeKill 7],
       timedOut := true }
     7 (by decide) (by decide)⟩

/-- C7: the worker process exits with status zero exactly when the
Conversion capability (OfficeConverter.convert) reports success, and
nonzero whenever it signals an error or the concrete converter threw; a
failure to capture and write the external process identifier to the Handle
Channel only logs a warning and does not change the conversion's outcome;
and the identifier reaches the channel exactly when the application was
dispatched and the capture succeeded. -/
theorem C7_worker_exit_contract (env : WorkerEnv) :
    (workerExitcode env = 0 ↔ OfficeConverter_convert env = true) ∧
    (∀ x : Option Nat,
        (ExcelConverter_convert { env.com with pidCapture := x } true).raised
          = (ExcelConverter_convert env.com true).raised) ∧
    ((ExcelConverter_convert env.com true).pidSent
        = if env.com.dispatchOk then env.com.pidCapture else none) := by
  rcases env with ⟨ie, stt, com⟩
  rcases com with ⟨d, pc, o, ex, cr, qr⟩
  refine ⟨?_, ?_, ?_⟩
  · rcases h : OfficeConverter_convert ⟨ie, stt, ⟨d, pc, o, ex, cr, qr⟩⟩ with _ | _ <;>
      simp [workerExitcode, convert_worker_raises, h]
  · intro x
    cases d <;> cases o <;> cases ex <;> simp [ExcelConverter_convert]
  · cases d <;> cases o <;> cases ex <;> rcases pc with _ | pid <;>
      simp [ExcelConverter_convert]

/-- C7 witness: for a fully successful environment, exit status 0
coincides with a success report, and a failed pid capture leaves the
outcome unchanged. -/
theorem C7_worker_exit_contract_witness :
    (workerExitcode envAllOk = 0 ↔ OfficeConverter_convert envAllOk = true) ∧
    ((ExcelConverter_convert { envAllOk.com with pidCapture := none } true).raised
        = (ExcelConverter_convert envAllOk.com true).raised) :=
  ⟨(C7_worker_exit_contract envAllOk).1, (C7_worker_exit_contract envAllOk).2.1 none⟩

/-- C10: every ExcelConverter.convert call, whether it returns or raises,
attempts in its finally block to close the opened workbook without saving
changes (whenever a workbook was opened) and to quit the Excel application
(whenever one was created), and exceptions raised by those cleanup calls
are swallowed: the call's outcome and the identifier it wrote to the
Handle Channel are unchanged by cleanup failures. -/
theorem C10_cleanup (env : ComEnv) (pq : Bool) :
    (env.dispatchOk = true →
        ComEvent.quitAttempt ∈ (ExcelConverter_convert env pq).events) ∧
    (env.dispatchOk = true → env.openOk = true →
        ComEvent.closeNoSaveAttempt ∈ (ExcelConverter_convert env pq).events) ∧
    (∀ b1 b2 : Bool,
        (ExcelConverter_convert { env with closeRaises := b1, quitRaises := b2 } pq).raised
          = (ExcelConverter_convert env pq).raised ∧
        (ExcelConverter_convert { env with closeRaises := b1, quitRaises := b2 } pq).pidSent
          = (ExcelConverter_convert env pq).pidSent) := by
  rcases env with ⟨d, pc, o, ex, cr, qr⟩
  refine ⟨?_, ?_, ?_⟩
  · intro hd
    subst hd
    cases o <;> cases ex <;> cases pq <;> rcases pc with _ | pid <;>
      cases cr <;> cases qr <;>
      simp [ExcelConverter_convert, closeEvents, quitEvents]
  · intro hd ho
    subst hd
    subst ho
    cases ex <;> cases pq <;> rcases pc with _ | pid <;>
      cases cr <;> cases qr <;>
      simp [ExcelConverter_convert, closeEvents, quitEvents]
  · intro b1 b2
    cases d <;> cases o <;> cases ex <;> simp [ExcelConverter_convert]

/-- C10 witness: a call whose export fails and whose quit raises still
attempts both cleanup steps, and making both cleanup calls raise does not
change whether the call itself raises. -/
theorem C10_cleanup_witness :
    (ComEvent.quitAttempt ∈ (ExcelConverter_convert comEnvMixed true).events) ∧
    (ComEvent.closeNoSaveAttempt ∈ (ExcelConverter_convert comEnvMixed true).events) ∧
    ((ExcelConverter_convert
        { comEnvMixed with closeRaises := true, quitRaises := true } true).raised
      = (ExcelConverter_convert comEnvMixed true).raised) :=
  ⟨(C10_cleanup comEnvMixed true).1 rfl, (C10_cleanup comEnvMixed true).2.1 rfl rfl,
   ((C10_cleanup comEnvMixed true).2.2 true true).1⟩

end Xlsx2Pdf
